import Mathlib

/-!
Verification of `skfair/metrics/equal_opportunity_score.py`.

The Python module defines a factory `equal_opportunity_score(sensitive_column,
positive_target)` returning a scoring closure `impl(estimator, X, y_true)`.
We embed the closure shallowly:

* label values and sensitive-column entries are integers (`ℤ`);
* numpy float division of the two non-negative rates is modelled by a small
  surrogate type `NpFloat` with `nan` (0/0), `inf` (positive/0) and exact
  rational values, since only those three shapes are reachable here;
* `np.mean(arr == target)` over a selection becomes `npMean`:
  `count target / length` as a rational;
* boolean-mask selection `y_hat[(z == g) & (y_true == t)]` becomes
  `maskSelect`;
* `np.unique` (sorted distinct values) becomes `npUnique`;
* the observable effects — the raised `ValueError` payload, the emitted
  `RuntimeWarning`s (recorded by group id) and whether `estimator.predict`
  was invoked — are returned explicitly in a `RunResult` record.
-/

namespace SkFair

/-- Surrogate for the reachable numpy float values in the score computation:
`nan` (from 0/0), positive infinity (from p/0 with p > 0), or a finite value
represented exactly as a rational. -/
inductive NpFloat where
  | nan : NpFloat
  | inf : NpFloat
  | val : ℚ → NpFloat
deriving DecidableEq

/-- numpy division semantics for non-negative operands: `0/0 = nan`,
`p/0 = inf` for `p ≠ 0`, otherwise exact division. -/
def npDiv (a b : ℚ) : NpFloat :=
  if b = 0 then (if a = 0 then NpFloat.nan else NpFloat.inf) else NpFloat.val (a / b)

/-- `np.minimum` on the surrogate: nan propagates, infinity is absorbing
upward, finite values take the ordinary minimum. -/
def npMin : NpFloat → NpFloat → NpFloat
  | NpFloat.nan, _ => NpFloat.nan
  | _, NpFloat.nan => NpFloat.nan
  | NpFloat.inf, y => y
  | x, NpFloat.inf => x
  | NpFloat.val a, NpFloat.val b => NpFloat.val (min a b)

/-- `np.isnan` on the surrogate. -/
def npIsnan : NpFloat → Bool
  | NpFloat.nan => true
  | _ => false

/-- Insert a value into a sorted duplicate-free list, keeping it sorted and
duplicate-free. -/
def insertUnique (x : ℤ) : List ℤ → List ℤ
  | [] => [x]
  | y :: ys =>
    if x < y then x :: y :: ys
    else if x = y then y :: ys
    else y :: insertUnique x ys

/-- `np.unique`: the distinct values of the list in increasing order. -/
def npUnique (l : List ℤ) : List ℤ := l.foldr insertUnique []

/-- The distinct values of the column that are neither 0 nor 1 (what the spec
calls the "offending values"), in increasing order. -/
def offendingValues (l : List ℤ) : List ℤ :=
  npUnique (l.filter (fun v => decide (v ≠ 0 ∧ v ≠ 1)))

/-- Boolean-mask selection `y_hat[(z == g) & (y_true == target)]`: the
predictions at the indices whose sensitive value is `g` and whose true label
is `target`, in order. -/
def maskSelect (g target : ℤ) : List ℤ → List ℤ → List ℤ → List ℤ
  | zv :: zs, yv :: ys, hv :: hs =>
    (if zv = g ∧ yv = target then [hv] else []) ++ maskSelect g target zs ys hs
  | _, _, _ => []

/-- `np.mean(sel == target)`: the fraction of entries of `sel` equal to
`target` (0 when `sel` is empty, matching `0/0 = 0` in `ℚ`; the code only
reaches this on non-empty selections). -/
def npMean (target : ℤ) (sel : List ℤ) : ℚ :=
  (sel.count target : ℚ) / (sel.length : ℚ)

/-- Outcome of one call of the scoring closure: either the `ValueError`
(carrying the list of values the message reports) or a returned score. -/
inductive Outcome where
  | error : List ℤ → Outcome
  | score : NpFloat → Outcome
deriving DecidableEq

/-- Full observable behaviour of one call: the `RuntimeWarning`s emitted (as
the group ids 1 / 0 they mention, in emission order), whether
`estimator.predict` was invoked, and the outcome. -/
structure RunResult where
  warnings : List ℤ
  predictCalled : Bool
  outcome : Outcome
deriving DecidableEq

/-- The scoring closure `impl(estimator, X, y_true)`, after the sensitive
column `z` has been extracted from `X`; `predict` is the estimator's
prediction on `X`, passed as a thunk that the control flow forces only after
validation succeeds, mirroring the call order of the source. -/
def impl (positive_target : ℤ) (z y_true : List ℤ) (predict : Unit → List ℤ) :
    RunResult :=
  if ¬ (∀ v ∈ z, v = 0 ∨ v = 1) then
    ⟨[], false, Outcome.error (npUnique z)⟩
  else
    let y_hat := predict ()
    let y_given_z1_y1 := maskSelect 1 positive_target z y_true y_hat
    let y_given_z0_y1 := maskSelect 0 positive_target z y_true y_hat
    if y_given_z1_y1 = [] then ⟨[1], true, Outcome.score (NpFloat.val 0)⟩
    else if y_given_z0_y1 = [] then ⟨[0], true, Outcome.score (NpFloat.val 0)⟩
    else
      let p_y1_z1 := npMean positive_target y_given_z1_y1
      let p_y1_z0 := npMean positive_target y_given_z0_y1
      let s := npMin (npDiv p_y1_z1 p_y1_z0) (npDiv p_y1_z0 p_y1_z1)
      if npIsnan s then ⟨[], true, Outcome.score (NpFloat.val 1)⟩
      else ⟨[], true, Outcome.score s⟩

/-- An estimator: an opaque object exposing `predict(X)`. -/
structure Estimator where
  predict : List (List ℤ) → List ℤ

/-- Column extraction `X[:, j]` for a numeric matrix given as a row list. -/
def extractColumn (X : List (List ℤ)) (j : ℕ) : List ℤ :=
  X.map (fun row => row.getD j 0)

/-- The factory: given the sensitive column index and the positive-target
label, return the scoring closure. All validation and computation happens
inside `impl` at call time. -/
def equal_opportunity_score (sensitive_column : ℕ) (positive_target : ℤ) :
    Estimator → List (List ℤ) → List ℤ → RunResult :=
  fun estimator X y_true =>
    impl positive_target (extractColumn X sensitive_column) y_true
      (fun _ => estimator.predict X)

/-- The score actually returned by a call, when it did not raise. -/
def returnedScore (r : RunResult) : Option NpFloat :=
  match r.outcome with
  | Outcome.error _ => none
  | Outcome.score s => some s

end SkFair

namespace SkFair

/-! ### Branch-unfolding lemmas for `impl` -/

theorem impl_invalid {z : List ℤ} (h : ¬ ∀ v ∈ z, v = 0 ∨ v = 1)
    (t : ℤ) (y_true : List ℤ) (p : Unit → List ℤ) :
    impl t z y_true p = ⟨[], false, Outcome.error (npUnique z)⟩ := by
  simp only [impl, if_pos h]

theorem impl_s1_empty {z y_true y_hat : List ℤ} {t : ℤ}
    (h : ∀ v ∈ z, v = 0 ∨ v = 1)
    (h1 : maskSelect 1 t z y_true y_hat = []) :
    impl t z y_true (fun _ => y_hat) = ⟨[1], true, Outcome.score (NpFloat.val 0)⟩ := by
  simp only [impl, if_neg (not_not_intro h)]
  simp [h1]

theorem impl_s0_empty {z y_true y_hat : List ℤ} {t : ℤ}
    (h : ∀ v ∈ z, v = 0 ∨ v = 1)
    (h1 : maskSelect 1 t z y_true y_hat ≠ [])
    (h0 : maskSelect 0 t z y_true y_hat = []) :
    impl t z y_true (fun _ => y_hat) = ⟨[0], true, Outcome.score (NpFloat.val 0)⟩ := by
  simp only [impl, if_neg (not_not_intro h)]
  simp [h1, h0]

theorem impl_rates {z y_true y_hat : List ℤ} {t : ℤ}
    (h : ∀ v ∈ z, v = 0 ∨ v = 1)
    (h1 : maskSelect 1 t z y_true y_hat ≠ [])
    (h0 : maskSelect 0 t z y_true y_hat ≠ []) :
    impl t z y_true (fun _ => y_hat) = ⟨[], true, Outcome.score
      (if npIsnan (npMin
            (npDiv (npMean t (maskSelect 1 t z y_true y_hat))
              (npMean t (maskSelect 0 t z y_true y_hat)))
            (npDiv (npMean t (maskSelect 0 t z y_true y_hat))
              (npMean t (maskSelect 1 t z y_true y_hat))))
        then NpFloat.val 1
        else npMin
            (npDiv (npMean t (maskSelect 1 t z y_true y_hat))
              (npMean t (maskSelect 0 t z y_true y_hat)))
            (npDiv (npMean t (maskSelect 0 t z y_true y_hat))
              (npMean t (maskSelect 1 t z y_true y_hat))))⟩ := by
  simp only [impl, if_neg (not_not_intro h)]
  simp only [if_neg h1, if_neg h0]
  split <;> rfl

/-! ### Arithmetic helper lemmas -/

theorem npMean_nonneg (t : ℤ) (sel : List ℤ) : 0 ≤ npMean t sel :=
  div_nonneg (by positivity) (by positivity)

theorem npMean_eq_zero_iff {sel : List ℤ} (hne : sel ≠ []) (t : ℤ) :
    npMean t sel = 0 ↔ t ∉ sel := by
  have hlen : (sel.length : ℚ) ≠ 0 :=
    Nat.cast_ne_zero.mpr (fun h0 => hne (List.length_eq_zero.mp h0))
  rw [npMean, div_eq_zero_iff]
  simp only [hlen, or_false, Nat.cast_eq_zero]
  exact List.count_eq_zero

theorem npMin_comm (a b : NpFloat) : npMin a b = npMin b a := by
  cases a <;> cases b <;> simp [npMin, min_comm]

theorem min_ratio_bounds {a b : ℚ} (ha : 0 < a) (hb : 0 < b) :
    0 < min (a / b) (b / a) ∧ min (a / b) (b / a) ≤ 1 := by
  constructor
  · exact lt_min (div_pos ha hb) (div_pos hb ha)
  · rcases le_total a b with h | h
    · exact min_le_of_left_le ((div_le_one hb).mpr h)
    · exact min_le_of_right_le ((div_le_one ha).mpr h)

/-- Shared core: when both selections are non-empty and the two rates are
equal, the call returns the score 1 with no warning (covers both the `0/0`
tie via the nan branch and the `p/p = 1` case). -/
theorem impl_score_one_of_rate_eq {z y_true y_hat : List ℤ} {t : ℤ}
    (h : ∀ v ∈ z, v = 0 ∨ v = 1)
    (h1 : maskSelect 1 t z y_true y_hat ≠ [])
    (h0 : maskSelect 0 t z y_true y_hat ≠ [])
    (heq : npMean t (maskSelect 1 t z y_true y_hat)
         = npMean t (maskSelect 0 t z y_true y_hat)) :
    impl t z y_true (fun _ => y_hat) = ⟨[], true, Outcome.score (NpFloat.val 1)⟩ := by
  rw [impl_rates h h1 h0, heq]
  by_cases hz : npMean t (maskSelect 0 t z y_true y_hat) = 0
  · simp [hz, npDiv, npMin, npIsnan]
  · simp [npDiv, npMin, npIsnan, hz, div_self hz]

/-! ### Inversion lemmas for the group-swap symmetry -/

theorem valid_invert (z : List ℤ) :
    (∀ v ∈ z.map (fun w => 1 - w), v = 0 ∨ v = 1) ↔ (∀ v ∈ z, v = 0 ∨ v = 1) := by
  simp only [List.mem_map]
  constructor
  · intro h v hv
    have := h (1 - v) ⟨v, hv, rfl⟩
    omega
  · rintro h v ⟨w, hw, rfl⟩
    have := h w hw
    omega

theorem maskSelect_invert (g t : ℤ) :
    ∀ (zs ys hs : List ℤ),
      maskSelect g t (zs.map (fun w => 1 - w)) ys hs = maskSelect (1 - g) t zs ys hs := by
  intro zs
  induction zs with
  | nil => intro ys hs; rfl
  | cons zv zs ih =>
    intro ys hs
    cases ys with
    | nil => rfl
    | cons yv ys =>
      cases hs with
      | nil => rfl
      | cons hv hs =>
        simp only [List.map_cons, maskSelect, ih]
        have hg : (1 - zv = g) ↔ (zv = 1 - g) := by omega
        simp [hg]

/-- C1: on the end-to-end example — X a 6×1 matrix whose single column is
`z = [0,0,0,1,1,1]`, `y_true = [1,1,0,1,1,0]`, an estimator predicting
`[1,0,0,1,0,0]`, `positive_target = 1` — the group selections are `[1,0]`
each, both rates are 1/2, and the call returns the score 1 with no warning
and no error. -/
theorem c1_end_to_end_example :
    (equal_opportunity_score 0 1 ⟨fun _ => [1, 0, 0, 1, 0, 0]⟩
        [[0], [0], [0], [1], [1], [1]] [1, 1, 0, 1, 1, 0]
      = ⟨[], true, Outcome.score (NpFloat.val 1)⟩)
    ∧ npMean 1 (maskSelect 1 1 [0, 0, 0, 1, 1, 1] [1, 1, 0, 1, 1, 0]
        [1, 0, 0, 1, 0, 0]) = 1 / 2
    ∧ npMean 1 (maskSelect 0 1 [0, 0, 0, 1, 1, 1] [1, 1, 0, 1, 1, 0]
        [1, 0, 0, 1, 0, 0]) = 1 / 2 := by
  refine ⟨?_, ?_, ?_⟩ <;>
    (norm_num [equal_opportunity_score, impl, extractColumn, maskSelect,
      npMean, npDiv, npMin, npIsnan]; all_goals decide)

/-- C2 counterexample: with `z = [0,1]`, `y_true = [1,1]`, predictions
`[1,0]` and `positive_target = 1`, both selections are non-empty and the
group-1 rate is 0, yet the call returns 0, not 1 — numpy evaluates
`min(0/1, 1/0) = min(0, inf) = 0`, which is not nan. -/
theorem c2_counterexample :
    maskSelect 1 1 [0, 1] [1, 1] [1, 0] ≠ []
    ∧ maskSelect 0 1 [0, 1] [1, 1] [1, 0] ≠ []
    ∧ npMean 1 (maskSelect 1 1 [0, 1] [1, 1] [1, 0]) = 0
    ∧ (impl 1 [0, 1] [1, 1] (fun _ => [1, 0])).outcome
        = Outcome.score (NpFloat.val 0)
    ∧ (impl 1 [0, 1] [1, 1] (fun _ => [1, 0])).outcome
        ≠ Outcome.score (NpFloat.val 1) := by
  refine ⟨by decide, by decide, ?_, ?_, ?_⟩ <;>
    norm_num [impl, maskSelect, npMean, npDiv, npMin, npIsnan]

/-- C2 (amended): with both selections non-empty, the call returns 1 when
both rates are 0 (the 0/0 nan case), but when exactly one rate is 0 it
returns 0 (min of 0 and infinity), not 1. -/
theorem c2_amended_zero_rate (t : ℤ) (z y_true y_hat : List ℤ)
    (hval : ∀ v ∈ z, v = 0 ∨ v = 1)
    (h1 : maskSelect 1 t z y_true y_hat ≠ [])
    (h0 : maskSelect 0 t z y_true y_hat ≠ []) :
    (npMean t (maskSelect 1 t z y_true y_hat) = 0 →
      npMean t (maskSelect 0 t z y_true y_hat) = 0 →
      impl t z y_true (fun _ => y_hat) = ⟨[], true, Outcome.score (NpFloat.val 1)⟩)
    ∧ (npMean t (maskSelect 1 t z y_true y_hat) = 0 →
      npMean t (maskSelect 0 t z y_true y_hat) ≠ 0 →
      impl t z y_true (fun _ => y_hat) = ⟨[], true, Outcome.score (NpFloat.val 0)⟩)
    ∧ (npMean t (maskSelect 1 t z y_true y_hat) ≠ 0 →
      npMean t (maskSelect 0 t z y_true y_hat) = 0 →
      impl t z y_true (fun _ => y_hat) = ⟨[], true, Outcome.score (NpFloat.val 0)⟩) := by
  refine ⟨?_, ?_, ?_⟩
  · intro hp1 hp0
    exact impl_score_one_of_rate_eq hval h1 h0 (hp1.trans hp0.symm)
  · intro hp1 hp0
    rw [impl_rates hval h1 h0, hp1]
    simp [npDiv, npMin, npIsnan, hp0]
  · intro hp1 hp0
    rw [impl_rates hval h1 h0, hp0]
    simp [npDiv, npMin, npIsnan, hp1]

/-- Witness for the amended C2 at the counterexample input: the call
returns 0 when the group-1 rate alone is 0. -/
theorem c2_amended_zero_rate_witness :
    impl 1 [0, 1] [1, 1] (fun _ => [1, 0])
      = ⟨[], true, Outcome.score (NpFloat.val 0)⟩ :=
  (c2_amended_zero_rate 1 [0, 1] [1, 1] [1, 0] (by decide) (by decide)
      (by decide)).2.1
    (by norm_num [maskSelect, npMean]) (by norm_num [maskSelect, npMean])

/-- C3 counterexample: with `z = [0, 2]` the call raises, but the message
payload is `np.unique(z) = [0, 2]` — all distinct column values — not the
distinct offending values `[2]`. -/
theorem c3_counterexample :
    (impl 1 [0, 2] [1, 1] (fun _ => [1, 1])).outcome = Outcome.error [0, 2]
    ∧ offendingValues [0, 2] = [2]
    ∧ ([0, 2] : List ℤ) ≠ [2] := by
  refine ⟨by decide, by decide, by decide⟩

/-- C3 (amended): the call raises the invalid-input error exactly when the
sensitive column contains a value other than 0 or 1, and the raised error
reports all distinct values of the column in increasing order (a superset
of the offending values); with an all-0/1 column no error is ever
raised. -/
theorem c3_amended_validation (t : ℤ) (z y_true y_hat : List ℤ) :
    ((¬ ∀ v ∈ z, v = 0 ∨ v = 1) →
      (impl t z y_true (fun _ => y_hat)).outcome = Outcome.error (npUnique z))
    ∧ ((∀ v ∈ z, v = 0 ∨ v = 1) →
      ∀ vals, (impl t z y_true (fun _ => y_hat)).outcome ≠ Outcome.error vals) := by
  constructor
  · intro h
    rw [impl_invalid h]
  · intro h vals
    by_cases h1 : maskSelect 1 t z y_true y_hat = []
    · rw [impl_s1_empty h h1]
      simp
    · by_cases h0 : maskSelect 0 t z y_true y_hat = []
      · rw [impl_s0_empty h h1 h0]
        simp
      · rw [impl_rates h h1 h0]
        simp

/-- Witness for the amended C3: an invalid column yields the error with
the full distinct-value list, and a valid column yields no error. -/
theorem c3_amended_validation_witness :
    (impl 1 [0, 2] [1, 1] (fun _ => [1, 1])).outcome = Outcome.error (npUnique [0, 2])
    ∧ ∀ vals, (impl 1 [0, 1] [1, 1] (fun _ => [1, 1])).outcome ≠ Outcome.error vals :=
  ⟨(c3_amended_validation 1 [0, 2] [1, 1] [1, 1]).1 (by decide),
   (c3_amended_validation 1 [0, 1] [1, 1] [1, 1]).2 (by decide)⟩

/-- C4: with a valid column, if the group-1 selection is empty the call
warns about group 1 and returns 0 (this is also exactly what happens when
both selections are empty: only the group-1 warning is emitted); if the
group-1 selection is non-empty and the group-0 selection is empty, the
call warns about group 0 and returns 0. -/
theorem c4_empty_group (t : ℤ) (z y_true y_hat : List ℤ)
    (hval : ∀ v ∈ z, v = 0 ∨ v = 1) :
    (maskSelect 1 t z y_true y_hat = [] →
      impl t z y_true (fun _ => y_hat) = ⟨[1], true, Outcome.score (NpFloat.val 0)⟩)
    ∧ (maskSelect 1 t z y_true y_hat ≠ [] → maskSelect 0 t z y_true y_hat = [] →
      impl t z y_true (fun _ => y_hat) = ⟨[0], true, Outcome.score (NpFloat.val 0)⟩) :=
  ⟨fun h1 => impl_s1_empty hval h1, fun h1 h0 => impl_s0_empty hval h1 h0⟩

/-- Witness for C4: group-1 selection empty (indeed both empty) warns on
group 1 and returns 0; group-0 selection empty warns on group 0 and
returns 0. -/
theorem c4_empty_group_witness :
    impl 1 [0] [0] (fun _ => [0]) = ⟨[1], true, Outcome.score (NpFloat.val 0)⟩
    ∧ impl 1 [1] [1] (fun _ => [0]) = ⟨[0], true, Outcome.score (NpFloat.val 0)⟩ :=
  ⟨(c4_empty_group 1 [0] [0] [0] (by decide)).1 (by decide),
   (c4_empty_group 1 [1] [1] [0] (by decide)).2 (by decide) (by decide)⟩

/-- C5: with a valid column and both selections non-empty, if every
selected prediction differs from the positive target in both groups (both
rates are 0, a 0/0 ratio), the call returns 1 with no warning emitted. -/
theorem c5_zero_rate_tie (t : ℤ) (z y_true y_hat : List ℤ)
    (hval : ∀ v ∈ z, v = 0 ∨ v = 1)
    (h1 : maskSelect 1 t z y_true y_hat ≠ [])
    (h0 : maskSelect 0 t z y_true y_hat ≠ [])
    (hall1 : ∀ v ∈ maskSelect 1 t z y_true y_hat, v ≠ t)
    (hall0 : ∀ v ∈ maskSelect 0 t z y_true y_hat, v ≠ t) :
    impl t z y_true (fun _ => y_hat) = ⟨[], true, Outcome.score (NpFloat.val 1)⟩ := by
  have hz1 : npMean t (maskSelect 1 t z y_true y_hat) = 0 :=
    (npMean_eq_zero_iff h1 t).mpr (fun hm => hall1 t hm rfl)
  have hz0 : npMean t (maskSelect 0 t z y_true y_hat) = 0 :=
    (npMean_eq_zero_iff h0 t).mpr (fun hm => hall0 t hm rfl)
  exact impl_score_one_of_rate_eq hval h1 h0 (hz1.trans hz0.symm)

/-- Witness for C5: both groups have one eligible sample, the model
predicts 0 for both, and the call returns 1 silently. -/
theorem c5_zero_rate_tie_witness :
    impl 1 [0, 1] [1, 1] (fun _ => [0, 0])
      = ⟨[], true, Outcome.score (NpFloat.val 1)⟩ :=
  c5_zero_rate_tie 1 [0, 1] [1, 1] [0, 0] (by decide) (by decide) (by decide)
    (by decide) (by decide)

/-- C6: inverting the sensitive column (`z ↦ 1 - z`) while keeping the
true labels and predictions fixed leaves the returned score unchanged —
in the error case neither call returns a score, in the degenerate cases
both return 0, and otherwise the minimum of the two reciprocal ratios is
symmetric. -/
theorem c6_group_swap_symmetry (t : ℤ) (z y_true y_hat : List ℤ) :
    returnedScore (impl t (z.map (fun w => 1 - w)) y_true (fun _ => y_hat))
      = returnedScore (impl t z y_true (fun _ => y_hat)) := by
  have m1 : maskSelect 1 t (z.map (fun w => 1 - w)) y_true y_hat
      = maskSelect 0 t z y_true y_hat := by
    rw [maskSelect_invert]
    norm_num
  have m0 : maskSelect 0 t (z.map (fun w => 1 - w)) y_true y_hat
      = maskSelect 1 t z y_true y_hat := by
    rw [maskSelect_invert]
    norm_num
  by_cases hval : ∀ v ∈ z, v = 0 ∨ v = 1
  · have hval' : ∀ v ∈ z.map (fun w => 1 - w), v = 0 ∨ v = 1 :=
      (valid_invert z).mpr hval
    by_cases h1 : maskSelect 1 t z y_true y_hat = []
    · rw [impl_s1_empty hval h1]
      by_cases h0 : maskSelect 0 t z y_true y_hat = []
      · rw [impl_s1_empty hval' (m1.trans h0)]
      · rw [impl_s0_empty hval' (fun hc => h0 (m1.symm.trans hc)) (m0.trans h1)]
        simp [returnedScore]
    · by_cases h0 : maskSelect 0 t z y_true y_hat = []
      · rw [impl_s0_empty hval h1 h0, impl_s1_empty hval' (m1.trans h0)]
        simp [returnedScore]
      · rw [impl_rates hval h1 h0,
          impl_rates hval' (fun hc => h0 (m1.symm.trans hc))
            (fun hc => h1 (m0.symm.trans hc)),
          m1, m0,
          npMin_comm (npDiv (npMean t (maskSelect 0 t z y_true y_hat))
              (npMean t (maskSelect 1 t z y_true y_hat)))
            (npDiv (npMean t (maskSelect 1 t z y_true y_hat))
              (npMean t (maskSelect 0 t z y_true y_hat)))]
  · have hval' : ¬ ∀ v ∈ z.map (fun w => 1 - w), v = 0 ∨ v = 1 :=
      fun hc => hval ((valid_invert z).mp hc)
    rw [impl_invalid hval, impl_invalid hval']
    simp [returnedScore]

/-- C7: with a valid column, both selections non-empty and not both rates
zero, the call returns a finite score in [0, 1]; when both rates are
nonzero the score is strictly positive. -/
theorem c7_score_range (t : ℤ) (z y_true y_hat : List ℤ)
    (hval : ∀ v ∈ z, v = 0 ∨ v = 1)
    (h1 : maskSelect 1 t z y_true y_hat ≠ [])
    (h0 : maskSelect 0 t z y_true y_hat ≠ [])
    (hnz : npMean t (maskSelect 1 t z y_true y_hat) ≠ 0
         ∨ npMean t (maskSelect 0 t z y_true y_hat) ≠ 0) :
    ∃ q : ℚ, (impl t z y_true (fun _ => y_hat)).outcome = Outcome.score (NpFloat.val q)
      ∧ 0 ≤ q ∧ q ≤ 1
      ∧ (npMean t (maskSelect 1 t z y_true y_hat) ≠ 0 →
         npMean t (maskSelect 0 t z y_true y_hat) ≠ 0 → 0 < q) := by
  by_cases hp1 : npMean t (maskSelect 1 t z y_true y_hat) = 0
  · have hp0 : npMean t (maskSelect 0 t z y_true y_hat) ≠ 0 :=
      hnz.resolve_left (not_not_intro hp1)
    refine ⟨0, ?_, le_refl 0, by norm_num, fun hc _ => absurd hp1 hc⟩
    rw [impl_rates hval h1 h0, hp1]
    simp [npDiv, npMin, npIsnan, hp0]
  · by_cases hp0 : npMean t (maskSelect 0 t z y_true y_hat) = 0
    · refine ⟨0, ?_, le_refl 0, by norm_num, fun _ hc => absurd hp0 hc⟩
      rw [impl_rates hval h1 h0, hp0]
      simp [npDiv, npMin, npIsnan, hp1]
    · have h1pos : 0 < npMean t (maskSelect 1 t z y_true y_hat) :=
        lt_of_le_of_ne (npMean_nonneg t _) (Ne.symm hp1)
      have h0pos : 0 < npMean t (maskSelect 0 t z y_true y_hat) :=
        lt_of_le_of_ne (npMean_nonneg t _) (Ne.symm hp0)
      obtain ⟨hposmin, hlemin⟩ := min_ratio_bounds h1pos h0pos
      refine ⟨_, ?_, le_of_lt hposmin, hlemin, fun _ _ => hposmin⟩
      rw [impl_rates hval h1 h0]
      simp [npDiv, npMin, npIsnan, hp1, hp0]

/-- Witness for C7 at a concrete non-degenerate input: both rates are 1
and the score is in (0, 1]. -/
theorem c7_score_range_witness :
    ∃ q : ℚ, (impl 1 [0, 1] [1, 1] (fun _ => [1, 1])).outcome
        = Outcome.score (NpFloat.val q)
      ∧ 0 ≤ q ∧ q ≤ 1
      ∧ (npMean 1 (maskSelect 1 1 [0, 1] [1, 1] [1, 1]) ≠ 0 →
         npMean 1 (maskSelect 0 1 [0, 1] [1, 1] [1, 1]) ≠ 0 → 0 < q) :=
  c7_score_range 1 [0, 1] [1, 1] [1, 1] (by decide) (by decide) (by decide)
    (Or.inl (by norm_num [maskSelect, npMean]))

/-- C8: with a valid column and both selections non-empty, equal group
rates make the call return exactly 1 (via `p/p = 1` when the common rate
is nonzero, and via the nan fallback when it is 0). -/
theorem c8_perfect_fairness (t : ℤ) (z y_true y_hat : List ℤ)
    (hval : ∀ v ∈ z, v = 0 ∨ v = 1)
    (h1 : maskSelect 1 t z y_true y_hat ≠ [])
    (h0 : maskSelect 0 t z y_true y_hat ≠ [])
    (heq : npMean t (maskSelect 1 t z y_true y_hat)
         = npMean t (maskSelect 0 t z y_true y_hat)) :
    impl t z y_true (fun _ => y_hat) = ⟨[], true, Outcome.score (NpFloat.val 1)⟩ :=
  impl_score_one_of_rate_eq hval h1 h0 heq

/-- Witness for C8: both rates are 1 and the call returns 1. -/
theorem c8_perfect_fairness_witness :
    impl 1 [0, 1] [1, 1] (fun _ => [1, 1])
      = ⟨[], true, Outcome.score (NpFloat.val 1)⟩ :=
  c8_perfect_fairness 1 [0, 1] [1, 1] [1, 1] (by decide) (by decide) (by decide)
    (by norm_num [maskSelect, npMean])

/-- C9: the factory returns a closure for every configuration; calling the
closure twice on the same arguments yields the same result, and every call
is exactly one evaluation of `impl` on the extracted column — all
validation and computation is deferred to call time and no state is
carried between calls. -/
theorem c9_factory_pure (sc : ℕ) (t : ℤ) (est : Estimator)
    (X : List (List ℤ)) (y_true : List ℤ) :
    equal_opportunity_score sc t est X y_true = equal_opportunity_score sc t est X y_true
    ∧ equal_opportunity_score sc t est X y_true
      = impl t (extractColumn X sc) y_true (fun _ => est.predict X) :=
  ⟨rfl, rfl⟩

/-- C10: on a column failing validation, the call raises without ever
invoking `estimator.predict`: the recorded predict flag is false and the
result is independent of what the estimator would predict. -/
theorem c10_no_predict_on_invalid (t : ℤ) (z y_true : List ℤ)
    (p q : Unit → List ℤ)
    (hval : ¬ ∀ v ∈ z, v = 0 ∨ v = 1) :
    (impl t z y_true p).predictCalled = false
    ∧ impl t z y_true p = impl t z y_true q := by
  rw [impl_invalid hval, impl_invalid hval]
  exact ⟨rfl, rfl⟩

/-- Witness for C10 at the column `[2]`: no predict call happens and two
different estimators give identical results. -/
theorem c10_no_predict_on_invalid_witness :
    (impl 1 [2] [1] (fun _ => [1])).predictCalled = false
    ∧ impl 1 [2] [1] (fun _ => [1]) = impl 1 [2] [1] (fun _ => [0]) :=
  c10_no_predict_on_invalid 1 [2] [1] (fun _ => [1]) (fun _ => [0]) (by decide)

end SkFair
